import Mathlib

/-!
Shallow embedding of the decision-route backend (`src/main.py`).

The core of the program is the pure function `_generate_recommendations`,
which lowercases the prompt, extracts an optional budget with the regex
`(\d{2,3})\s?(k|mil|000|k\s?mxn|mxn)`, detects four keyword groups by
substring containment, builds three fixed recommendation records and then
applies two sequential overrides to the `recommended` flags.  The HTTP
handler `analyze_decision` validates the trimmed prompt length, calls the
generator, and persists best-effort (any persistence failure is swallowed).

Strings are modelled as Lean `String` / `List Char`; the Python regex
search is modelled with explicit leftmost search and greedy backtracking,
exactly as the `re` engine evaluates this particular pattern.
-/

namespace DecisionRoutes

/-- Python `str.lower()` on the prompt, character by character (the
characters relevant to the matching logic are ASCII letters and digits,
on which `Char.toLower` agrees with Python). -/
def pyLower (l : List Char) : List Char := l.map Char.toLower

/-- Substring containment, modelling Python `needle in haystack`. -/
def containsSub (n : List Char) : List Char → Bool
  | [] => n.isEmpty
  | c :: t => n.isPrefixOf (c :: t) || containsSub n t

/-- Python `str.strip()`: drop whitespace from both ends. -/
def pyStrip (l : List Char) : List Char :=
  ((l.dropWhile Char.isWhitespace).reverse.dropWhile Char.isWhitespace).reverse

/-- Value of a digit string, as Python `int` computes it on digit-only input. -/
def digitsVal (l : List Char) : Nat :=
  l.foldl (fun a c => a * 10 + (c.toNat - 48)) 0

/-- Python `int(s)` on the captured group, made fallible the way `int` is:
it succeeds exactly on nonempty all-digit strings (the only shapes group 1
can take) and fails otherwise.  The caller catches the failure. -/
def pyInt (l : List Char) : Option Nat :=
  if l ≠ [] ∧ l.all Char.isDigit then some (digitsVal l) else none

/-- The alternative `k\s?mxn` of the unit alternation: literal `k`, an
optional (greedy) whitespace character, then literal `mxn`.  Returns the
matched characters (group 2's text). -/
def matchKMxn : List Char → Option (List Char)
  | [] => none
  | c :: rest =>
    if c = 'k' then
      match rest with
      | [] => none
      | d :: t =>
        if d.isWhitespace && ("mxn".toList).isPrefixOf t then
          some (c :: d :: "mxn".toList)
        else if ("mxn".toList).isPrefixOf rest then
          some (c :: "mxn".toList)
        else none
    else none

/-- The unit alternation `(k|mil|000|k\s?mxn|mxn)` at a fixed position:
alternatives are tried left to right and the first that matches wins
(nothing follows group 2 in the pattern, so no backtracking re-enters it). -/
def matchUnit (s : List Char) : Option (List Char) :=
  if ("k".toList).isPrefixOf s then some "k".toList
  else if ("mil".toList).isPrefixOf s then some "mil".toList
  else if ("000".toList).isPrefixOf s then some "000".toList
  else
    match matchKMxn s with
    | some u => some u
    | none => if ("mxn".toList).isPrefixOf s then some "mxn".toList else none

/-- `\s?` before the unit: greedily try consuming one whitespace character,
then fall back to consuming none. -/
def matchSpaceUnit : List Char → Option (List Char)
  | [] => matchUnit []
  | c :: t =>
    if c.isWhitespace then
      match matchUnit t with
      | some u => some u
      | none => matchUnit (c :: t)
    else matchUnit (c :: t)

/-- Attempt of `(\d{2,3})\s?(unit)` at this position with three digits. -/
def tryThree : List Char → Option (List Char × List Char)
  | d1 :: d2 :: d3 :: rest =>
    if d1.isDigit && d2.isDigit && d3.isDigit then
      (matchSpaceUnit rest).map (fun u => ([d1, d2, d3], u))
    else none
  | _ => none

/-- Attempt of `(\d{2,3})\s?(unit)` at this position with two digits. -/
def tryTwo : List Char → Option (List Char × List Char)
  | d1 :: d2 :: rest =>
    if d1.isDigit && d2.isDigit then
      (matchSpaceUnit rest).map (fun u => ([d1, d2], u))
    else none
  | _ => none

/-- Match attempt at one start position: `\d{2,3}` is greedy, so three
digits are tried before backtracking to two. -/
def tryAt (s : List Char) : Option (List Char × List Char) :=
  match tryThree s with
  | some r => some r
  | none => tryTwo s

/-- `re.search` of `(\d{2,3})\s?(k|mil|000|k\s?mxn|mxn)`: start positions
are tried left to right; the result is `(group 1, group 2)`. -/
def reSearch : List Char → Option (List Char × List Char)
  | [] => none
  | c :: t =>
    match tryAt (c :: t) with
    | some r => some r
    | none => reSearch t

/-- The unit strings whose multiplier is 1000 in the source
(`m.group(2) in ["k", "mil", "k mxn", "mxn"]`). -/
def thousandUnits : List (List Char) :=
  ["k".toList, "mil".toList, "k mxn".toList, "mxn".toList]

/-- Budget extraction (`main.py` lines 103–111): regex search, `int` on
group 1 inside a `try` whose `except` leaves the budget unset, and the
multiplier rule on group 2. -/
def extractBudget (text : List Char) : Option Nat :=
  match reSearch text with
  | none => none
  | some (d, u) =>
    match pyInt d with
    | some num => some (num * (if thousandUnits.contains u then 1000 else 1))
    | none => none

/-- Keyword group for the `portabilidad` signal. -/
def portKeywords : List (List Char) :=
  ["peso".toList, "liger".toList, "portátil".toList, "portatil".toList]

/-- Keyword group for the `rendimiento` signal. -/
def rendKeywords : List (List Char) :=
  ["render".toList, "3d".toList, "lumion".toList, "blender".toList,
   "revit".toList, "potencia".toList, "gpu".toList]

/-- Keyword group for the `confianza` signal. -/
def confKeywords : List (List Char) :=
  ["durabil".toList, "garant".toList, "soporte".toList, "confi".toList]

/-- Keyword group for the `ruido` signal. -/
def ruidoKeywords : List (List Char) :=
  ["silenc".toList, "ruido".toList]

/-- `any(k in text for k in kws)`. -/
def hasAny (kws : List (List Char)) (text : List Char) : Bool :=
  kws.any (fun k => containsSub k text)

/-- The `priorities` list (`main.py` lines 113–121), in append order. -/
def prioritiesOf (text : List Char) : List String :=
  (if hasAny portKeywords text then ["portabilidad"] else []) ++
  (if hasAny rendKeywords text then ["rendimiento"] else []) ++
  (if hasAny confKeywords text then ["confianza"] else []) ++
  (if hasAny ruidoKeywords text then ["ruido"] else [])

/-- One decision-route suggestion (`Recommendation` model in `main.py`). -/
structure Recommendation where
  id : String
  title : String
  summary : String
  bullets : List String
  badge : String
  recommended : Bool
deriving DecidableEq, Repr

/-- Reversed-digit comma grouping helper for Python `f"{n:,}"`. -/
def commaRev : List Char → List Char
  | a :: b :: c :: rest =>
    match rest with
    | [] => [a, b, c]
    | _ :: _ => a :: b :: c :: ',' :: commaRev rest
  | l => l

/-- Python `f"{n:,}"`: decimal digits with thousands separators. -/
def fmtComma (n : Nat) : String :=
  String.mk (commaRev (Nat.repr n).toList.reverse).reverse

/-- Suffix of the balance route's second bullet:
`(f" (≤ {budget:,} MXN)" if budget else ".")` — note Python truthiness,
so a budget of 0 also falls to the plain period. -/
def budgetSuffix : Option Nat → String
  | some n => if n = 0 then "." else " (≤ " ++ fmtComma n ++ " MXN)"
  | none => "."

/-- The `route_balance` record as constructed, before overrides. -/
def balanceRoute (budget : Option Nat) : Recommendation :=
  { id := "route_balance"
    title := "Ruta A – Equilibrio rendimiento / precio"
    summary := "Balancea potencia suficiente con cuidado del presupuesto."
    bullets :=
      ["Prioriza GPU y RAM sobre detalles cosméticos.",
       "Mantiene el presupuesto bajo control" ++ budgetSuffix budget,
       "Acepta un peso medio para no sacrificar demasiada potencia.",
       "Propone marcas con buen soporte técnico para minimizar riesgos."]
    badge := "Balance"
    recommended := true }

/-- The `route_power` record as constructed, before overrides. -/
def powerRoute : Recommendation :=
  { id := "route_power"
    title := "Ruta B – Máxima potencia para cargas pesadas"
    summary := "Prioriza rendimiento sostenido para 3D y render, asumiendo trade-offs."
    bullets :=
      ["Maximiza GPU/CPU y memoria para proyectos exigentes.",
       "Puede exceder un poco el presupuesto si el beneficio es claro.",
       "Acepta mayor peso y menor batería para ganar velocidad.",
       "Sugiere sistemas de enfriamiento más robustos (algo más de ruido)."]
    badge := "Riesgo alto"
    recommended := false }

/-- The `route_portability` record as constructed, before overrides. -/
def portabilityRoute : Recommendation :=
  { id := "route_portability"
    title := "Ruta C – Ultra ligera, consciente del sacrificio"
    summary := "Optimiza portabilidad y ergonomía, sacrificando potencia tope."
    bullets :=
      ["Elige chasis delgados y materiales ligeros.",
       "Rinde bien en tareas de diseño medio; renderizados más lentos.",
       "Se enfoca en autonomía y menor ruido cuando es posible.",
       "Se asegura de que el peso total sea cómodo para transporte diario."]
    badge := "Conservadora"
    recommended := false }

/-- Route construction and the two sequential overrides
(`main.py` lines 124–177): if `portabilidad` is in `priorities`, clear the
balance flag and set portability; then, independently, if `rendimiento` is
in `priorities`, clear the balance flag and set power. -/
def buildRoutes (budget : Option Nat) (priorities : List String) : List Recommendation :=
  let r0 := balanceRoute budget
  let r1 := powerRoute
  let r2 := portabilityRoute
  let p := priorities.contains "portabilidad"
  let q := priorities.contains "rendimiento"
  let r0a := if p then { r0 with recommended := false } else r0
  let r2a := if p then { r2 with recommended := true } else r2
  let r0b := if q then { r0a with recommended := false } else r0a
  let r1a := if q then { r1 with recommended := true } else r1
  [r0b, r1a, r2a]

/-- `_generate_recommendations` (`main.py` lines 95–177): lowercase the
prompt, extract the budget and the priorities, build the three routes. -/
def generateRecommendations (prompt : String) : List Recommendation :=
  buildRoutes (extractBudget (pyLower prompt.toList)) (prioritiesOf (pyLower prompt.toList))

/-- The HTTPException raised by the handler. -/
structure HTTPError where
  status : Nat
  detail : String
deriving DecidableEq, Repr

/-- Response envelope of `/api/decision/analyze` (metadata flattened to
its two entries: the `received_at` timestamp and the prompt length). -/
structure AnalyzeResponse where
  robot_message : String
  status : String
  recommendations : List Recommendation
  decision_id : Option String
  received_at : String
  length : Nat
deriving DecidableEq, Repr

/-- The fixed robot message composed by the handler. -/
def robotMessage : String :=
  "Entiendo tu objetivo y voy a priorizar lo que más te importa. " ++
  "Aquí tienes 2–3 rutas de decisión con sus trade-offs. " ++
  "¿Prefieres optimizar portabilidad, rendimiento puro o un balance claro?"

/-- The fixed Spanish guidance message of the 400 error. -/
def shortPromptDetail : String :=
  "La descripción es muy corta. Agrega propósito, presupuesto y prioridades."

/-- `analyze_decision` (`main.py` lines 180–222).  The persistence
collaborator's behaviour on this call is passed explicitly: `.ok v` means
`create_document` returned `v`; `.error ()` means the import was missing or
`create_document` raised — the `except` branch leaves `decision_id = None`.
The wall-clock timestamp is passed in as `now`. -/
def analyzeDecision (now : String) (persist : Except Unit (Option String))
    (prompt : String) : Except HTTPError AnalyzeResponse :=
  if prompt.toList = [] ∨ (pyStrip prompt.toList).length < 15 then
    Except.error { status := 400, detail := shortPromptDetail }
  else
    Except.ok
      { robot_message := robotMessage
        status := "ready"
        recommendations := generateRecommendations prompt
        decision_id := match persist with
          | Except.ok v => v
          | Except.error _ => none
        received_at := now
        length := prompt.toList.length }

/-! ### Helper lemmas -/

/-- A successful `k\s?mxn` match starts with the literal `k`. -/
lemma matchKMxn_starts_k {s u : List Char} (h : matchKMxn s = some u) :
    ("k".toList).isPrefixOf s = true := by
  cases s with
  | nil => exact Option.noConfusion h
  | cons c t =>
    simp only [matchKMxn] at h
    by_cases hc : c = 'k'
    · subst hc
      show List.isPrefixOf ['k'] ('k' :: t) = true
      simp [List.isPrefixOf]
    · rw [if_neg hc] at h
      exact Option.noConfusion h

/-- Group 2 of any successful unit match is one of the four reachable unit
strings; the `k\s?mxn` alternative is shadowed by the plain `k` one. -/
lemma matchUnit_cases {s u : List Char} (h : matchUnit s = some u) :
    u = "k".toList ∨ u = "mil".toList ∨ u = "000".toList ∨ u = "mxn".toList := by
  unfold matchUnit at h
  split at h
  · exact Or.inl (Option.some.inj h).symm
  · split at h
    · exact Or.inr (Or.inl (Option.some.inj h).symm)
    · split at h
      · exact Or.inr (Or.inr (Or.inl (Option.some.inj h).symm))
      · rename_i hk _ _
        split at h
        · rename_i u' hm
          exact absurd (matchKMxn_starts_k hm) hk
        · split at h
          · exact Or.inr (Or.inr (Or.inr (Option.some.inj h).symm))
          · exact Option.noConfusion h

/-- A successful `\s?`-plus-unit match comes from a unit match somewhere. -/
lemma matchSpaceUnit_unit {t u : List Char} (h : matchSpaceUnit t = some u) :
    ∃ s, matchUnit s = some u := by
  cases t with
  | nil => exact ⟨[], h⟩
  | cons c t' =>
    simp only [matchSpaceUnit] at h
    split at h
    · split at h
      · rename_i u' hm
        exact ⟨t', hm.trans h⟩
      · exact ⟨c :: t', h⟩
    · exact ⟨c :: t', h⟩

/-- A three-digit attempt yields a nonempty all-digit group 1 and a unit
match for group 2. -/
lemma tryThree_spec {s : List Char} {d u : List Char}
    (h : tryThree s = some (d, u)) :
    (d ≠ [] ∧ d.all Char.isDigit) ∧ ∃ t, matchSpaceUnit t = some u := by
  unfold tryThree at h
  split at h
  · rename_i d1 d2 d3 rest
    split at h
    · rename_i hdig
      rcases Option.map_eq_some'.mp h with ⟨u', hu', hf⟩
      have hd : d = [d1, d2, d3] := (congrArg Prod.fst hf).symm
      have hu : u' = u := congrArg Prod.snd hf
      subst hd
      simp only [Bool.and_eq_true] at hdig
      refine ⟨⟨by simp, by simp [hdig.1.1, hdig.1.2, hdig.2]⟩, ⟨rest, hu ▸ hu'⟩⟩
    · exact Option.noConfusion h
  · exact Option.noConfusion h

/-- A two-digit attempt yields a nonempty all-digit group 1 and a unit
match for group 2. -/
lemma tryTwo_spec {s : List Char} {d u : List Char}
    (h : tryTwo s = some (d, u)) :
    (d ≠ [] ∧ d.all Char.isDigit) ∧ ∃ t, matchSpaceUnit t = some u := by
  unfold tryTwo at h
  split at h
  · rename_i d1 d2 rest
    split at h
    · rename_i hdig
      rcases Option.map_eq_some'.mp h with ⟨u', hu', hf⟩
      have hd : d = [d1, d2] := (congrArg Prod.fst hf).symm
      have hu : u' = u := congrArg Prod.snd hf
      subst hd
      simp only [Bool.and_eq_true] at hdig
      refine ⟨⟨by simp, by simp [hdig.1, hdig.2]⟩, ⟨rest, hu ▸ hu'⟩⟩
    · exact Option.noConfusion h
  · exact Option.noConfusion h

/-- Any successful search yields a nonempty all-digit group 1 and one of
the four reachable unit strings as group 2. -/
lemma reSearch_spec {s d u : List Char} (h : reSearch s = some (d, u)) :
    (d ≠ [] ∧ d.all Char.isDigit) ∧
      (u = "k".toList ∨ u = "mil".toList ∨ u = "000".toList ∨ u = "mxn".toList) := by
  induction s with
  | nil => exact Option.noConfusion h
  | cons c t ih =>
    unfold reSearch at h
    split at h
    · rename_i r hr
      have hr' : tryAt (c :: t) = some (d, u) := by
        rw [hr]
        exact congrArg some (Option.some.inj h)
      unfold tryAt at hr'
      have hspec : (d ≠ [] ∧ d.all Char.isDigit) ∧ ∃ t', matchSpaceUnit t' = some u := by
        split at hr'
        · rename_i r3 h3
          exact tryThree_spec (h3.trans hr')
        · exact tryTwo_spec hr'
      rcases hspec with ⟨hd, ⟨t', ht'⟩⟩
      rcases matchSpaceUnit_unit ht' with ⟨s', hs'⟩
      exact ⟨hd, matchUnit_cases hs'⟩
    · exact ih h

/-- `int` on the captured digit group always succeeds with its value. -/
lemma pyInt_of_digits {d : List Char} (h1 : d ≠ []) (h2 : d.all Char.isDigit) :
    pyInt d = some (digitsVal d) := by
  simp [pyInt, h1, h2]

/-- Membership of `portabilidad` in the priorities list is exactly the
portability signal. -/
lemma prioritiesOf_contains_port (t : List Char) :
    (prioritiesOf t).contains "portabilidad" = hasAny portKeywords t := by
  cases h1 : hasAny portKeywords t <;> cases h2 : hasAny rendKeywords t <;>
    cases h3 : hasAny confKeywords t <;> cases h4 : hasAny ruidoKeywords t <;>
      simp [prioritiesOf, h1, h2, h3, h4]

/-- Membership of `rendimiento` in the priorities list is exactly the
performance signal. -/
lemma prioritiesOf_contains_rend (t : List Char) :
    (prioritiesOf t).contains "rendimiento" = hasAny rendKeywords t := by
  cases h1 : hasAny portKeywords t <;> cases h2 : hasAny rendKeywords t <;>
    cases h3 : hasAny confKeywords t <;> cases h4 : hasAny ruidoKeywords t <;>
      simp [prioritiesOf, h1, h2, h3, h4]

/-- The ids and count of the built routes, whatever the signals. -/
lemma buildRoutes_ids (b : Option Nat) (pr : List String) :
    (buildRoutes b pr).map (fun r => r.id) =
      ["route_balance", "route_power", "route_portability"] := by
  cases hp : pr.contains "portabilidad" <;> cases hq : pr.contains "rendimiento" <;>
    · simp only [buildRoutes]
      rw [hp, hq]
      simp [balanceRoute, powerRoute, portabilityRoute]

/-- The net effect of the two sequential overrides on the flags. -/
lemma buildRoutes_flags (b : Option Nat) (pr : List String) :
    (buildRoutes b pr).map (fun r => (r.id, r.recommended)) =
      [("route_balance", !(pr.contains "portabilidad" || pr.contains "rendimiento")),
       ("route_power", pr.contains "rendimiento"),
       ("route_portability", pr.contains "portabilidad")] := by
  cases hp : pr.contains "portabilidad" <;> cases hq : pr.contains "rendimiento" <;>
    · simp only [buildRoutes]
      rw [hp, hq]
      simp [balanceRoute, powerRoute, portabilityRoute]

/-- Route construction reads the priorities list only through the
`portabilidad` and `rendimiento` membership tests. -/
lemma buildRoutes_congr (b : Option Nat) (pr pr' : List String)
    (h1 : pr.contains "portabilidad" = pr'.contains "portabilidad")
    (h2 : pr.contains "rendimiento" = pr'.contains "rendimiento") :
    buildRoutes b pr = buildRoutes b pr' := by
  simp only [buildRoutes, h1, h2]

/-- Some route always carries the `recommended` flag. -/
lemma buildRoutes_any (b : Option Nat) (pr : List String) :
    (buildRoutes b pr).any (fun r => r.recommended) = true := by
  cases hp : pr.contains "portabilidad" <;> cases hq : pr.contains "rendimiento" <;>
    · simp only [buildRoutes]
      rw [hp, hq]
      simp [balanceRoute, powerRoute, portabilityRoute]

/-! ### Claim theorems -/

/-- C1: for every input string accepted as a valid prompt (trimmed length
at least 15), the route generator returns exactly 3 recommendation records
whose ids are `route_balance`, `route_power`, `route_portability`, in that
fixed slot order. -/
theorem claim1_three_fixed_routes (p : String)
    (h : 15 ≤ (pyStrip p.toList).length) :
    (generateRecommendations p).length = 3 ∧
    (generateRecommendations p).map (fun r => r.id) =
      ["route_balance", "route_power", "route_portability"] := by
  refine ⟨?_, ?_⟩
  · have := buildRoutes_ids (extractBudget (pyLower p.toList)) (prioritiesOf (pyLower p.toList))
    have hlen := congrArg List.length this
    simpa [generateRecommendations] using hlen
  · simpa [generateRecommendations] using
      buildRoutes_ids (extractBudget (pyLower p.toList)) (prioritiesOf (pyLower p.toList))

/-- Witness for C1 at a concrete valid prompt. -/
theorem claim1_witness :
    (generateRecommendations "quiero una laptop para la escuela").length = 3 ∧
    (generateRecommendations "quiero una laptop para la escuela").map (fun r => r.id) =
      ["route_balance", "route_power", "route_portability"] :=
  claim1_three_fixed_routes "quiero una laptop para la escuela" (by decide)

/-- C2: the recommended flags follow the sequential-override rule — the
balance flag ends up true exactly when neither signal fires, the power flag
equals the `rendimiento` signal, the portability flag equals the
`portabilidad` signal; in particular with both signals present both the
power and portability flags are true and the balance flag is false. -/
theorem claim2_override_rule (p : String) :
    (generateRecommendations p).map (fun r => (r.id, r.recommended)) =
      [("route_balance",
         !(hasAny portKeywords (pyLower p.toList) || hasAny rendKeywords (pyLower p.toList))),
       ("route_power", hasAny rendKeywords (pyLower p.toList)),
       ("route_portability", hasAny portKeywords (pyLower p.toList))] := by
  have h := buildRoutes_flags (extractBudget (pyLower p.toList)) (prioritiesOf (pyLower p.toList))
  rw [prioritiesOf_contains_port, prioritiesOf_contains_rend] at h
  simpa [generateRecommendations] using h

/-- C3 counterexample: on `"presupuesto de 30000"` the budget is NOT unset
(the regex backtracks to number `30`, unit `000`), and the balance record's
second bullet does NOT end in a plain period. -/
theorem claim3_counterexample :
    extractBudget ("presupuesto de 30000".toList) ≠ none ∧
    ((generateRecommendations "presupuesto de 30000").map
        (fun r => r.bullets.get? 1)).get? 0 ≠
      some (some "Mantiene el presupuesto bajo control.") := by
  refine ⟨?_, ?_⟩ <;> decide

/-- C3 amended: on `"presupuesto de 30000"` budget extraction yields 30
(number `30`, unit the literal `000`, multiplier 1), and the balance
record's second bullet carries the interpolated figure `(≤ 30 MXN)`. -/
theorem claim3_amended_budget30 :
    extractBudget ("presupuesto de 30000".toList) = some 30 ∧
    ((generateRecommendations "presupuesto de 30000").map
        (fun r => r.bullets.get? 1)).get? 0 =
      some (some "Mantiene el presupuesto bajo control (≤ 30 MXN)") := by
  refine ⟨?_, ?_⟩ <;> decide

/-- C4: whenever the budget pattern matches, the budget is the numeric
part times 1000 when the matched unit is `k`, `mil`, `k mxn` or `mxn`, and
times 1 when the matched unit is the literal digits `000`; in particular
`"laptop de 25k mxn"` yields 25000 and `"20 mil pesos"` yields 20000. -/
theorem claim4_multiplier_rule :
    (∀ s d u, reSearch s = some (d, u) →
      ((u = "k".toList ∨ u = "mil".toList ∨ u = "k mxn".toList ∨ u = "mxn".toList →
          extractBudget s = some (digitsVal d * 1000)) ∧
       (u = "000".toList → extractBudget s = some (digitsVal d * 1)))) ∧
    extractBudget ("laptop de 25k mxn".toList) = some 25000 ∧
    extractBudget ("20 mil pesos".toList) = some 20000 := by
  refine ⟨?_, by decide, by decide⟩
  intro s d u h
  have hspec := reSearch_spec h
  have hint := pyInt_of_digits hspec.1.1 hspec.1.2
  constructor
  · intro hu
    have hmem : u ∈ thousandUnits := by
      rcases hu with h' | h' | h' | h' <;> subst h' <;> decide
    simp [extractBudget, h, hint, hmem]
  · intro hu
    subst hu
    have hmem : (['0', '0', '0'] : List Char) ∉ thousandUnits := by decide
    simp [extractBudget, h, hint, hmem]

/-- Witness for C4: the multiplier rule applied at a concrete match. -/
theorem claim4_witness :
    extractBudget ("tengo 40k para esto".toList) = some (digitsVal "40".toList * 1000) :=
  ((claim4_multiplier_rule.1 "tengo 40k para esto".toList "40".toList "k".toList
      (by decide)).1 (Or.inl rfl))

/-- C5: every prompt whose trimmed length is under 15 characters makes the
handler fail with HTTP 400 carrying the fixed Spanish guidance message,
whatever the persistence collaborator would do, so neither recommendation
generation nor a persistence attempt can influence the outcome. -/
theorem claim5_short_prompt_rejected (now : String)
    (persist : Except Unit (Option String)) (p : String)
    (h : (pyStrip p.toList).length < 15) :
    analyzeDecision now persist p =
      Except.error { status := 400, detail := shortPromptDetail } := by
  unfold analyzeDecision
  rw [if_pos (Or.inr h)]

/-- Witness for C5 at a concrete short prompt. -/
theorem claim5_witness :
    analyzeDecision "2024-01-01T00:00:00Z" (Except.ok (some "id9")) "hola" =
      Except.error { status := 400, detail := shortPromptDetail } :=
  claim5_short_prompt_rejected "2024-01-01T00:00:00Z" (Except.ok (some "id9")) "hola"
    (by decide)

/-- C6: for every valid prompt, a missing or raising persistence
collaborator still yields a successful response with `decision_id = none`,
and every other field equals the corresponding field of the response under
a successful persistence returning `v`. -/
theorem claim6_persistence_failure_is_benign (now p : String) (v : Option String)
    (h : 15 ≤ (pyStrip p.toList).length) :
    analyzeDecision now (Except.error ()) p =
      Except.ok
        { robot_message := robotMessage, status := "ready",
          recommendations := generateRecommendations p, decision_id := none,
          received_at := now, length := p.toList.length } ∧
    analyzeDecision now (Except.ok v) p =
      Except.ok
        { robot_message := robotMessage, status := "ready",
          recommendations := generateRecommendations p, decision_id := v,
          received_at := now, length := p.toList.length } := by
  have hne : ¬(p.toList = [] ∨ (pyStrip p.toList).length < 15) := by
    rintro (h1 | h2)
    · rw [h1] at h
      simp [pyStrip] at h
    · omega
  constructor <;> · unfold analyzeDecision; rw [if_neg hne]

/-- Witness for C6 at a concrete valid prompt. -/
theorem claim6_witness :
    analyzeDecision "t0" (Except.error ()) "quiero una computadora nueva" =
      Except.ok
        { robot_message := robotMessage, status := "ready",
          recommendations := generateRecommendations "quiero una computadora nueva",
          decision_id := none, received_at := "t0",
          length := "quiero una computadora nueva".toList.length } :=
  (claim6_persistence_failure_is_benign "t0" "quiero una computadora nueva"
    (some "abc") (by decide)).1

/-- C7: the route generator is total — it returns exactly three records on
every string — and the one fallible step, `int` on the captured digit
group, succeeds on every match, so the guarded parse can never fall into
its exception branch. -/
theorem claim7_generator_total (p : String) :
    (generateRecommendations p).length = 3 ∧
    ∀ s d u, reSearch s = some (d, u) → (pyInt d).isSome ∧ (extractBudget s).isSome := by
  constructor
  · have hlen := congrArg List.length
      (buildRoutes_ids (extractBudget (pyLower p.toList)) (prioritiesOf (pyLower p.toList)))
    simpa [generateRecommendations] using hlen
  · intro s d u h
    have hspec := reSearch_spec h
    have hint := pyInt_of_digits hspec.1.1 hspec.1.2
    exact ⟨by simp [hint], by simp [extractBudget, h, hint]⟩

/-- Witness for C7: totality at a concrete string and parse success on a
concrete match. -/
theorem claim7_witness :
    (generateRecommendations "abc").length = 3 ∧
      (pyInt ("25".toList)).isSome ∧ (extractBudget ("25k".toList)).isSome :=
  ⟨(claim7_generator_total "abc").1,
   ((claim7_generator_total "abc").2 "25k".toList "25".toList "k".toList (by decide)).1,
   ((claim7_generator_total "abc").2 "25k".toList "25".toList "k".toList (by decide)).2⟩

/-- C8: only the budget extraction result and the `portabilidad` and
`rendimiento` signals influence the generator — two prompts agreeing on
those three produce identical recommendation lists, so the detected-but-
unused `confianza` and `ruido` signals have no effect. -/
theorem claim8_output_determined_by_three_signals (p q : String)
    (hb : extractBudget (pyLower p.toList) = extractBudget (pyLower q.toList))
    (hp : hasAny portKeywords (pyLower p.toList) = hasAny portKeywords (pyLower q.toList))
    (hr : hasAny rendKeywords (pyLower p.toList) = hasAny rendKeywords (pyLower q.toList)) :
    generateRecommendations p = generateRecommendations q := by
  unfold generateRecommendations
  rw [hb]
  exact buildRoutes_congr _ _ _
    (by rw [prioritiesOf_contains_port, prioritiesOf_contains_port, hp])
    (by rw [prioritiesOf_contains_rend, prioritiesOf_contains_rend, hr])

/-- Witness for C8: two prompts differing in the dead `confianza` and
`ruido` signals produce the same recommendations. -/
theorem claim8_witness :
    generateRecommendations "quiero garantia y soporte tecnico bueno" =
      generateRecommendations "quiero silencio absoluto en la oficina" :=
  claim8_output_determined_by_three_signals
    "quiero garantia y soporte tecnico bueno"
    "quiero silencio absoluto en la oficina"
    (by decide) (by decide) (by decide)

/-- C9: the route generator is deterministic — two calls on the identical
prompt string yield identical ids, titles, summaries, bullets, badges and
recommended flags. -/
theorem claim9_deterministic (p q : String) (h : p = q) :
    (generateRecommendations p).map
        (fun r => (r.id, r.title, r.summary, r.bullets, r.badge, r.recommended)) =
      (generateRecommendations q).map
        (fun r => (r.id, r.title, r.summary, r.bullets, r.badge, r.recommended)) := by
  rw [h]

/-- Witness for C9 at a concrete repeated prompt. -/
theorem claim9_witness :
    (generateRecommendations "misma entrada dos veces").map
        (fun r => (r.id, r.title, r.summary, r.bullets, r.badge, r.recommended)) =
      (generateRecommendations "misma entrada dos veces").map
        (fun r => (r.id, r.title, r.summary, r.bullets, r.badge, r.recommended)) :=
  claim9_deterministic "misma entrada dos veces" "misma entrada dos veces" rfl

/-- C10: for every input string at least one of the three generated
recommendations carries `recommended = true`. -/
theorem claim10_some_recommended (p : String) :
    (generateRecommendations p).any (fun r => r.recommended) = true := by
  unfold generateRecommendations
  exact buildRoutes_any _ _

end DecisionRoutes
